import Mathlib

/-!
Verification of `src/gis/PointElevationUpdater.py` (class `PointElevationUpdater`),
a pipeline that assigns DEM elevations (Z-values) to 2D point datasets and
exports the result as 3D shapefile and GeoJSON.

Shallow embedding choices:
* Coordinates and elevations are rationals; the IEEE non-finite values that
  `np.isfinite` distinguishes are modelled by the extra constructors of `PyVal`.
* A CRS is an EPSG-style code; `Option` models an undefined CRS (`gdf.crs is None`).
* Reprojection (`GeoDataFrame.to_crs`) is delegated to an external library in the
  source; it is modelled abstractly by a coordinate transform parameter
  `T : Reproject` applied to every geometry, with attributes and order preserved.
* The raster handle (`rasterio` dataset) is modelled by its CRS together with a
  single-band point-sampling function (`DEM.sample`), as the spec assumes one band.
* The filesystem touched by the exporters is an explicit `FS` state: a set of
  existing directories, an association of paths to written file contents, and a
  set of paths on which writes fail (modelling OS-level write errors).
* Python object mutation (`gdf.copy()`, `updated.geometry = ...`, local rebinding
  of `gdf`) is modelled by a `Store` of dataframes addressed by references, so
  frame conditions ("the input dataset is not mutated") are real statements.
-/

namespace PEU

/-- An EPSG-style coordinate reference system code. -/
abbrev CRS := Nat

/-- A Python float as observed through `np.isfinite`: a finite rational,
or one of the non-finite values NaN, +inf, -inf. -/
inductive PyVal where
  | num (q : ℚ)
  | nan
  | posinf
  | neginf
deriving DecidableEq, Repr

/-- Model of `np.isfinite`. -/
def PyVal.isFinite : PyVal → Bool
  | .num _ => true
  | _ => false

/-- Model of `float(z)`, used in the source only on values that passed `np.isfinite`. -/
def PyVal.toFloat : PyVal → ℚ
  | .num q => q
  | _ => 0

/-- A shapely point geometry: 2D `Point(x, y)` or 3D `Point(x, y, z)`. -/
inductive Geometry where
  | point2 (x y : ℚ)
  | point3 (x y z : ℚ)
deriving DecidableEq, Repr

/-- Accessor `geom.x` of a shapely point. -/
def Geometry.x : Geometry → ℚ
  | .point2 x _ => x
  | .point3 x _ _ => x

/-- Accessor `geom.y` of a shapely point. -/
def Geometry.y : Geometry → ℚ
  | .point2 _ y => y
  | .point3 _ y _ => y

/-- One row of a GeoDataFrame: a point geometry plus its attribute fields. -/
structure Record where
  geometry : Geometry
  attrs : List (String × String)
deriving DecidableEq, Repr

/-- A point dataset: an ordered list of records with an associated CRS
(`none` = undefined CRS). -/
structure GeoDataFrame where
  crs : Option CRS
  records : List Record
deriving DecidableEq, Repr

instance : Inhabited GeoDataFrame := ⟨⟨none, []⟩⟩

/-- An abstract coordinate transform: given source CRS and target CRS, maps a
geometry to its reprojected image. Stands for the external pyproj/GEOS machinery
whose correctness the spec delegates. -/
abbrev Reproject := Option CRS → Option CRS → Geometry → Geometry

/-- Model of `gdf.to_crs(target)`: returns a new dataframe whose CRS is `target` and
whose every geometry is reprojected; attributes, count and order are untouched. -/
def GeoDataFrame.to_crs (T : Reproject) (gdf : GeoDataFrame) (target : Option CRS) :
    GeoDataFrame :=
  { crs := target
    records := gdf.records.map fun r => { r with geometry := T gdf.crs target r.geometry } }

/-- The opened DEM raster: its CRS and its single-band point-sampling operation
(`self.dem.crs`, `self.dem.sample`). Out-of-extent / nodata queries are the
non-finite values of `PyVal`. -/
structure DEM where
  crs : Option CRS
  sample : ℚ → ℚ → PyVal

/-- Method `_ensure_same_crs`: reproject points to the DEM CRS if the CRSs differ,
otherwise return the dataframe unchanged. -/
def ensure_same_crs (T : Reproject) (dem : DEM) (gdf : GeoDataFrame) : GeoDataFrame :=
  if gdf.crs ≠ dem.crs then gdf.to_crs T dem.crs else gdf

/-- Method `_sample_elevations`: extract `(geom.x, geom.y)` for every geometry in record
order, sample the DEM once over the whole coordinate list, and flatten to one
scalar per point. -/
def sample_elevations (dem : DEM) (gdf : GeoDataFrame) : List PyVal :=
  let coords := gdf.records.map fun r => (r.geometry.x, r.geometry.y)
  coords.map fun c => dem.sample c.1 c.2

/-- Method `update_z_values`: reconcile CRS, sample elevations, and rebuild the geometry
column, producing a 3D point where the sampled value is finite and keeping the
original geometry otherwise; works on a copy of the (reconciled) dataframe. -/
def update_z_values (T : Reproject) (dem : DEM) (gdf0 : GeoDataFrame) : GeoDataFrame :=
  let gdf := ensure_same_crs T dem gdf0
  let elevations := sample_elevations dem gdf
  let new_geoms := (gdf.records.zip elevations).map fun p =>
    if p.2.isFinite then Geometry.point3 p.1.geometry.x p.1.geometry.y p.2.toFloat
    else p.1.geometry
  { gdf with records := gdf.records.zipWith (fun r g => { r with geometry := g }) new_geoms }

/-! ### Filesystem model for the exporters -/

/-- Contents of an exported file: driver, CRS the dataset was written in, the
records written, and the text encoding passed to the writer. -/
inductive FileContent where
  | shp (crs : Option CRS) (records : List Record) (encoding : String)
  | geojson (crs : Option CRS) (records : List Record) (encoding : String)
deriving DecidableEq, Repr

/-- Errors surfaced by the pipeline: an unreadable input vector file, or an OS
write failure. -/
inductive PErr where
  | readError
  | writeError
deriving DecidableEq, Repr

/-- The filesystem state: directories known to exist, files written so far
(path to contents), and the set of paths on which a write fails. -/
structure FS where
  dirs : List String
  files : List (String × FileContent)
  failing : List String
deriving DecidableEq, Repr

/-- Overwrite-or-insert a path binding in the file table. -/
def setFile : List (String × FileContent) → String → FileContent → List (String × FileContent)
  | [], p, c => [(p, c)]
  | (q, d) :: rest, p, c => if q = p then (p, c) :: rest else (q, d) :: setFile rest p c

/-- Model of `os.makedirs(d, exist_ok=True)`: create the directory if absent; no error
when it already exists. -/
def FS.makedirs (fs : FS) (d : String) : FS :=
  if d ∈ fs.dirs then fs else { fs with dirs := d :: fs.dirs }

/-- Model of `gdf.to_file(path, ...)`: overwrite the target file, or fail with a write
error if the OS refuses the path. -/
def FS.write (fs : FS) (p : String) (c : FileContent) : Except PErr Unit × FS :=
  if p ∈ fs.failing then (Except.error PErr.writeError, fs)
  else (Except.ok (), { fs with files := setFile fs.files p c })

/-- Model of `os.path.dirname` (POSIX): everything before the last path separator
(empty when the path has no separator). -/
def dirname (p : String) : String :=
  match (p.data.reverse.dropWhile fun ch => ch != '/') with
  | [] => ""
  | _ :: t => String.mk t.reverse

/-- Model of `os.path.basename` (POSIX): the last path component. -/
def basename (p : String) : String :=
  String.mk (p.data.reverse.takeWhile fun ch => ch != '/').reverse

/-- Model of `os.path.splitext(name)[0]`: drop the extension after the last dot. -/
def stem (name : String) : String :=
  match (name.data.reverse.dropWhile fun ch => ch != '.') with
  | [] => name
  | _ :: t => String.mk t.reverse

/-- Model of `os.path.join` (POSIX, relative second component). -/
def joinPath (d f : String) : String := d ++ "/" ++ f

/-- Method `export_shp`: ensure the destination directory exists, then write the
dataset as-is as an ESRI Shapefile with UTF-8 encoding. -/
def export_shp (fs : FS) (gdf : GeoDataFrame) (output_path : String) :
    Except PErr Unit × FS :=
  let fs1 := fs.makedirs (dirname output_path)
  fs1.write output_path (FileContent.shp gdf.crs gdf.records "utf-8")

/-- Method `export_geojson`: ensure the destination directory exists, reproject a local
copy of the dataset to EPSG:4326, then write it as GeoJSON with UTF-8 encoding. -/
def export_geojson (T : Reproject) (fs : FS) (gdf : GeoDataFrame) (output_path : String) :
    Except PErr Unit × FS :=
  let fs1 := fs.makedirs (dirname output_path)
  let gdf1 := gdf.to_crs T (some 4326)
  fs1.write output_path (FileContent.geojson gdf1.crs gdf1.records "utf-8")

/-- Method `process_shapefile`: read the input vector file, update Z values, derive the
two output paths, export the shapefile and then the GeoJSON. The first error
aborts the rest; effects already performed stay. `parse` models
`gpd.read_file` (`none` = the input cannot be parsed as a point dataset). -/
def process_shapefile (T : Reproject) (dem : DEM) (parse : String → Option GeoDataFrame)
    (fs : FS) (shp_path out_dir : String) : Except PErr Unit × FS :=
  match parse shp_path with
  | none => (Except.error PErr.readError, fs)
  | some gdf =>
    let updated := update_z_values T dem gdf
    let base := stem (basename shp_path)
    let shp_out := joinPath out_dir (base ++ "_Z.shp")
    let json_out := joinPath out_dir (base ++ "_Z.geojson")
    match export_shp fs updated shp_out with
    | (Except.error e, fs1) => (Except.error e, fs1)
    | (Except.ok _, fs1) => export_geojson T fs1 updated json_out

/-! ### Store model for Python object mutation -/

/-- A heap of GeoDataFrame objects addressed by references, modelling Python's
object identity: `copy()` and `to_crs` allocate, attribute assignment mutates
in place. -/
structure Store where
  frames : List GeoDataFrame
deriving Repr

/-- Dereference (out-of-range references yield the default empty frame). -/
def Store.get (s : Store) (r : Nat) : GeoDataFrame := s.frames.getD r default

/-- Allocate a fresh object, returning the new store and its reference. -/
def Store.alloc (s : Store) (g : GeoDataFrame) : Store × Nat :=
  (⟨s.frames ++ [g]⟩, s.frames.length)

/-- Mutate the object behind a reference in place. -/
def Store.setRef (s : Store) (r : Nat) (g : GeoDataFrame) : Store :=
  ⟨s.frames.set r g⟩

/-- Method `update_z_values` at the object level: `_ensure_same_crs` either returns the
argument object itself (CRS match) or a freshly allocated reprojected frame;
`gdf.copy()` allocates; `updated.geometry = new_geoms` mutates only the copy.
Returns the store and the reference to the returned object. -/
def update_z_values_heap (T : Reproject) (dem : DEM) (s : Store) (r : Nat) : Store × Nat :=
  let step1 : Store × Nat :=
    if (s.get r).crs ≠ dem.crs then s.alloc ((s.get r).to_crs T dem.crs) else (s, r)
  let s1 := step1.1
  let gdf := s1.get step1.2
  let elevations := sample_elevations dem gdf
  let new_geoms := (gdf.records.zip elevations).map fun p =>
    if p.2.isFinite then Geometry.point3 p.1.geometry.x p.1.geometry.y p.2.toFloat
    else p.1.geometry
  let step2 := s1.alloc gdf
  let s2 := step2.1
  let r2 := step2.2
  let s3 := s2.setRef r2
    { s2.get r2 with
      records := (s2.get r2).records.zipWith (fun rec g => { rec with geometry := g }) new_geoms }
  (s3, r2)

/-- Method `export_geojson` at the object level: `gdf = gdf.to_crs(epsg=4326)` rebinds
the local name to a freshly allocated reprojected frame; the caller's object is
never written to. -/
def export_geojson_heap (T : Reproject) (s : Store) (r : Nat) (fs : FS)
    (output_path : String) : (Except PErr Unit × FS) × Store :=
  let fs1 := fs.makedirs (dirname output_path)
  let step := s.alloc ((s.get r).to_crs T (some 4326))
  let gdf := step.1.get step.2
  (fs1.write output_path (FileContent.geojson gdf.crs gdf.records "utf-8"), step.1)

/-! ### Concrete fixtures (used by witness theorems) -/

/-- A concrete reprojection backend: shifts coordinates, so that applying it is
observable. -/
def exT : Reproject := fun _ _ g => Geometry.point2 (g.x + 1) (g.y + 1)

/-- A concrete DEM: CRS EPSG:32633, constant elevation 100 on the extent
`[0,10] x [0,10]`, NaN outside. -/
def exDem : DEM :=
  { crs := some 32633
    sample := fun x y =>
      if 0 ≤ x ∧ x ≤ 10 ∧ 0 ≤ y ∧ y ≤ 10 then PyVal.num 100 else PyVal.nan }

/-- A record inside the DEM extent. -/
def exRecA : Record := { geometry := Geometry.point2 5 5, attrs := [("name", "A")] }

/-- A record outside the DEM extent. -/
def exRecB : Record := { geometry := Geometry.point2 1000 1000, attrs := [("name", "B")] }

/-- A dataset already in the DEM's CRS. -/
def exGdf : GeoDataFrame := { crs := some 32633, records := [exRecA, exRecB] }

/-- A dataset with an undefined CRS. -/
def exGdfNone : GeoDataFrame := { crs := none, records := [exRecA] }

/-- A dataset in a different CRS. -/
def exGdf4326 : GeoDataFrame := { crs := some 4326, records := [exRecA] }

/-- An empty dataset. -/
def exGdfEmpty : GeoDataFrame := { crs := some 32633, records := [] }

/-- A store holding two dataframe objects. -/
def exStore : Store := ⟨[exGdf, exGdfNone]⟩

/-- An empty filesystem that accepts all writes. -/
def exFS : FS := { dirs := [], files := [], failing := [] }

/-- A filesystem where the output directory already exists and the target file
already holds stale content. -/
def exFSBusy : FS :=
  { dirs := ["out"]
    files := [("out/a.shp", FileContent.shp none [] "latin-1")]
    failing := [] }

/-- A reader that parses every path to the concrete dataset `exGdf`. -/
def exParse : String → Option GeoDataFrame := fun _ => some exGdf

/-- A filesystem on which writing the GeoJSON output path fails. -/
def exFSJsonFail : FS := { dirs := [], files := [], failing := ["out/pts_Z.geojson"] }

end PEU

namespace PEU

/-! ### Helper lemmas -/

theorem sample_elevations_eq_map (dem : DEM) (gdf : GeoDataFrame) :
    sample_elevations dem gdf =
      gdf.records.map fun r => dem.sample r.geometry.x r.geometry.y := by
  simp [sample_elevations]

theorem zipWith_zip_map_self (l : List Record) (g : Record → PyVal)
    (F : Record → PyVal → Geometry) :
    l.zipWith (fun r geo => { r with geometry := geo })
        ((l.zip (l.map g)).map fun p => F p.1 p.2) =
      l.map fun r => { r with geometry := F r (g r) } := by
  induction l with
  | nil => rfl
  | cons a t ih => simp only [List.map_cons, List.zip_cons_cons, List.zipWith_cons_cons, ih]

/-- The geometry rewrite applied per record by `update_z_values`. -/
theorem update_z_values_records_eq (T : Reproject) (dem : DEM) (gdf : GeoDataFrame) :
    (update_z_values T dem gdf).records =
      (ensure_same_crs T dem gdf).records.map fun r =>
        { r with geometry :=
            if (dem.sample r.geometry.x r.geometry.y).isFinite then
              (Geometry.point3 r.geometry.x r.geometry.y
                ((dem.sample r.geometry.x r.geometry.y).toFloat))
            else r.geometry } := by
  unfold update_z_values
  dsimp only
  rw [sample_elevations_eq_map]
  exact zipWith_zip_map_self _ _ fun r z =>
    if z.isFinite then Geometry.point3 r.geometry.x r.geometry.y z.toFloat else r.geometry

theorem ensure_same_crs_crs (T : Reproject) (dem : DEM) (gdf : GeoDataFrame) :
    (ensure_same_crs T dem gdf).crs = dem.crs := by
  unfold ensure_same_crs
  split
  · rfl
  · next h => simpa using h

theorem update_z_values_crs (T : Reproject) (dem : DEM) (gdf : GeoDataFrame) :
    (update_z_values T dem gdf).crs = dem.crs := by
  unfold update_z_values
  exact ensure_same_crs_crs T dem gdf

theorem ensure_same_crs_records_length (T : Reproject) (dem : DEM) (gdf : GeoDataFrame) :
    (ensure_same_crs T dem gdf).records.length = gdf.records.length := by
  unfold ensure_same_crs
  split
  · simp [GeoDataFrame.to_crs]
  · rfl

theorem ensure_same_crs_attrs (T : Reproject) (dem : DEM) (gdf : GeoDataFrame) (i : Nat) :
    ((ensure_same_crs T dem gdf).records[i]?).map Record.attrs =
      (gdf.records[i]?).map Record.attrs := by
  unfold ensure_same_crs
  split
  · simp only [GeoDataFrame.to_crs, List.getElem?_map]
    cases gdf.records[i]? <;> rfl
  · rfl

/-! ### Claim theorems -/

/-- C3: `_ensure_same_crs` reprojects every geometry to the DEM's CRS whenever
the dataset's CRS differs from the DEM's — an undefined dataset CRS (`none`) is
covered by the same inequality, i.e. treated as a mismatch — and passes the
dataset through unchanged when the CRSs are equal. -/
theorem ensure_same_crs_spec (T : Reproject) (dem : DEM) (gdf : GeoDataFrame) :
    (gdf.crs ≠ dem.crs →
      ensure_same_crs T dem gdf =
        { crs := dem.crs
          records := gdf.records.map fun r =>
            { r with geometry := T gdf.crs dem.crs r.geometry } }) ∧
    (gdf.crs = dem.crs → ensure_same_crs T dem gdf = gdf) := by
  constructor
  · intro h
    simp [ensure_same_crs, h, GeoDataFrame.to_crs]
  · intro h
    simp [ensure_same_crs, h]

/-- Witness for C3: a dataset with undefined CRS is reprojected (treated as
mismatch); a dataset already in the DEM's CRS passes through. -/
theorem ensure_same_crs_spec_witness :
    (exGdfNone.crs ≠ exDem.crs ∧
      ensure_same_crs exT exDem exGdfNone =
        { crs := exDem.crs
          records := exGdfNone.records.map fun r =>
            { r with geometry := exT exGdfNone.crs exDem.crs r.geometry } }) ∧
    (exGdf.crs = exDem.crs ∧ ensure_same_crs exT exDem exGdf = exGdf) :=
  ⟨⟨by decide, (ensure_same_crs_spec exT exDem exGdfNone).1 (by decide)⟩,
   ⟨by decide, (ensure_same_crs_spec exT exDem exGdf).2 (by decide)⟩⟩

/-- C4: when the dataset's CRS already equals the DEM's CRS, `_ensure_same_crs`
is the identity, and its result does not depend on the reprojection backend at
all — no reprojection call is performed. -/
theorem ensure_same_crs_noop_when_match (dem : DEM) (gdf : GeoDataFrame)
    (h : gdf.crs = dem.crs) :
    ∀ T : Reproject, ensure_same_crs T dem gdf = gdf := by
  intro T
  simp [ensure_same_crs, h]

/-- Witness for C4 at a concrete matching dataset. -/
theorem ensure_same_crs_noop_when_match_witness :
    exGdf.crs = exDem.crs ∧ ensure_same_crs exT exDem exGdf = exGdf :=
  ⟨by decide, ensure_same_crs_noop_when_match exDem exGdf (by decide) exT⟩

/-- C9: on an empty dataset, elevation sampling produces the empty list and
`update_z_values` returns a dataset with no records; both are total functions,
so no error is possible. -/
theorem empty_dataset_ok (T : Reproject) (dem : DEM) (gdf : GeoDataFrame)
    (h : gdf.records = []) :
    sample_elevations dem gdf = [] ∧ (update_z_values T dem gdf).records = [] := by
  have h1 : (ensure_same_crs T dem gdf).records = [] := by
    unfold ensure_same_crs
    split
    · simp [GeoDataFrame.to_crs, h]
    · exact h
  constructor
  · simp [sample_elevations_eq_map, h]
  · simp [update_z_values_records_eq, h1]

/-- Witness for C9 at a concrete empty dataset. -/
theorem empty_dataset_ok_witness :
    exGdfEmpty.records = [] ∧
      (sample_elevations exDem exGdfEmpty = [] ∧
        (update_z_values exT exDem exGdfEmpty).records = []) :=
  ⟨rfl, empty_dataset_ok exT exDem exGdfEmpty rfl⟩

/-- C1: for each record of the CRS-reconciled dataset — the (geometry, sampled
elevation) pairs the rewrite loop processes — the output geometry is the 3D
point `(x, y, z)` built from the input point's x, y and the sampled value when
that value is finite, and is exactly the input geometry when it is not. -/
theorem update_z_values_pointwise (T : Reproject) (dem : DEM) (gdf : GeoDataFrame)
    (i : Nat) (rec0 : Record)
    (h : (ensure_same_crs T dem gdf).records[i]? = some rec0) :
    ((update_z_values T dem gdf).records[i]?).map Record.geometry =
      some (if (dem.sample rec0.geometry.x rec0.geometry.y).isFinite then
              (Geometry.point3 rec0.geometry.x rec0.geometry.y
                ((dem.sample rec0.geometry.x rec0.geometry.y).toFloat))
            else rec0.geometry) := by
  rw [update_z_values_records_eq, List.getElem?_map, h]
  rfl

/-- Witness for C1: first record of a matching-CRS dataset, inside the DEM
extent (finite sample). -/
theorem update_z_values_pointwise_witness :
    (ensure_same_crs exT exDem exGdf).records[0]? = some exRecA ∧
      ((update_z_values exT exDem exGdf).records[0]?).map Record.geometry =
        some (if (exDem.sample exRecA.geometry.x exRecA.geometry.y).isFinite then
                (Geometry.point3 exRecA.geometry.x exRecA.geometry.y
                  ((exDem.sample exRecA.geometry.x exRecA.geometry.y).toFloat))
              else exRecA.geometry) :=
  ⟨by decide, update_z_values_pointwise exT exDem exGdf 0 exRecA (by decide)⟩

/-- C2: `update_z_values` preserves the record count, and, position by
position, every record's attribute fields; only the geometry column may
change. -/
theorem update_z_values_preserves_count_and_attrs (T : Reproject) (dem : DEM)
    (gdf : GeoDataFrame) :
    (update_z_values T dem gdf).records.length = gdf.records.length ∧
    ∀ i : Nat, ((update_z_values T dem gdf).records[i]?).map Record.attrs =
      (gdf.records[i]?).map Record.attrs := by
  constructor
  · rw [update_z_values_records_eq]
    simp [ensure_same_crs_records_length]
  · intro i
    rw [update_z_values_records_eq, List.getElem?_map,
      ← ensure_same_crs_attrs T dem gdf i]
    cases (ensure_same_crs T dem gdf).records[i]? <;> rfl

end PEU

namespace PEU

/-! ### Store lemmas -/

theorem Store.get_alloc_of_lt (s : Store) (g : GeoDataFrame) {r : Nat}
    (h : r < s.frames.length) : (s.alloc g).1.get r = s.get r := by
  simp only [Store.get, Store.alloc, List.getD_eq_getElem?_getD,
    List.getElem?_append_left h]

theorem Store.get_alloc_self (s : Store) (g : GeoDataFrame) :
    (s.alloc g).1.get (s.alloc g).2 = g := by
  simp only [Store.get, Store.alloc, List.getD_eq_getElem?_getD,
    List.getElem?_concat_length, Option.getD_some]

theorem Store.frames_alloc_length (s : Store) (g : GeoDataFrame) :
    (s.alloc g).1.frames.length = s.frames.length + 1 := by
  simp [Store.alloc]

theorem Store.get_setRef_self (s : Store) (r : Nat) (g : GeoDataFrame)
    (h : r < s.frames.length) : (s.setRef r g).get r = g := by
  simp only [Store.get, Store.setRef, List.getD_eq_getElem?_getD]
  rw [List.getElem?_set_self]
  · rfl
  · exact h

theorem Store.get_setRef_ne (s : Store) {r r2 : Nat} (g : GeoDataFrame)
    (h : r2 ≠ r) : (s.setRef r2 g).get r = s.get r := by
  simp only [Store.get, Store.setRef, List.getD_eq_getElem?_getD,
    List.getElem?_set_ne h]

theorem Store.alloc_snd (s : Store) (g : GeoDataFrame) :
    (s.alloc g).2 = s.frames.length := rfl

theorem Store.get_alloc_length (s : Store) (g : GeoDataFrame) :
    (s.alloc g).1.get s.frames.length = g := by
  simp only [Store.get, Store.alloc, List.getD_eq_getElem?_getD,
    List.getElem?_concat_length, Option.getD_some]

theorem Store.get_alloc_alloc (s : Store) (g1 g2 : GeoDataFrame) :
    ((s.alloc g1).1.alloc g2).1.get (s.frames.length + 1) = g2 := by
  have h := Store.get_alloc_length (s.alloc g1).1 g2
  rwa [Store.frames_alloc_length] at h

/-- On a CRS mismatch, the object-level `update_z_values` allocates the
reprojected frame, allocates the copy, and mutates only the copy, which ends up
holding exactly the value of the pure `update_z_values`. -/
theorem update_z_values_heap_eq_of_ne (T : Reproject) (dem : DEM) (s : Store) (r : Nat)
    (hc : (s.get r).crs ≠ dem.crs) :
    update_z_values_heap T dem s r =
      (((s.alloc ((s.get r).to_crs T dem.crs)).1.alloc
            ((s.get r).to_crs T dem.crs)).1.setRef
          (s.frames.length + 1) (update_z_values T dem (s.get r)),
        s.frames.length + 1) := by
  have he : ensure_same_crs T dem (s.get r) = (s.get r).to_crs T dem.crs := by
    simp [ensure_same_crs, hc]
  unfold update_z_values_heap update_z_values
  dsimp only
  rw [if_pos hc]
  simp only [Store.alloc_snd, Store.frames_alloc_length]
  simp only [Store.get_alloc_length, Store.get_alloc_alloc]
  rw [he]

/-- On a CRS match, the object-level `update_z_values` takes the input object
itself through `_ensure_same_crs`, allocates the copy, and mutates only the
copy, which ends up holding exactly the value of the pure `update_z_values`. -/
theorem update_z_values_heap_eq_of_eq (T : Reproject) (dem : DEM) (s : Store) (r : Nat)
    (hc : ¬(s.get r).crs ≠ dem.crs) :
    update_z_values_heap T dem s r =
      ((s.alloc (s.get r)).1.setRef s.frames.length (update_z_values T dem (s.get r)),
        s.frames.length) := by
  have he : ensure_same_crs T dem (s.get r) = s.get r := by
    simp [ensure_same_crs, hc]
  unfold update_z_values_heap update_z_values
  dsimp only
  rw [if_neg hc]
  simp only [Store.alloc_snd, Store.get_alloc_length]
  rw [he]

/-- C5: at the object level, `update_z_values` never mutates its argument: the
object behind the input reference is unchanged after the call, the returned
reference is a different object, and that object holds the pure
`update_z_values` of the input's old value. -/
theorem update_z_values_heap_no_mutation (T : Reproject) (dem : DEM) (s : Store)
    (r : Nat) (h : r < s.frames.length) :
    (update_z_values_heap T dem s r).1.get r = s.get r ∧
    (update_z_values_heap T dem s r).2 ≠ r ∧
    (update_z_values_heap T dem s r).1.get (update_z_values_heap T dem s r).2 =
      update_z_values T dem (s.get r) := by
  by_cases hc : (s.get r).crs ≠ dem.crs
  · rw [update_z_values_heap_eq_of_ne T dem s r hc]
    refine ⟨?_, by dsimp only; omega, ?_⟩
    · rw [Store.get_setRef_ne _ _ (by omega)]
      rw [Store.get_alloc_of_lt _ _ (by rw [Store.frames_alloc_length]; omega)]
      exact Store.get_alloc_of_lt s _ h
    · exact Store.get_setRef_self _ _ _
        (by rw [Store.frames_alloc_length, Store.frames_alloc_length]; omega)
  · rw [update_z_values_heap_eq_of_eq T dem s r hc]
    refine ⟨?_, by dsimp only; omega, ?_⟩
    · rw [Store.get_setRef_ne _ _ (by omega)]
      exact Store.get_alloc_of_lt s _ h
    · exact Store.get_setRef_self _ _ _ (by rw [Store.frames_alloc_length]; omega)

/-- Witness for C5 at a concrete store and reference. -/
theorem update_z_values_heap_no_mutation_witness :
    0 < exStore.frames.length ∧
      ((update_z_values_heap exT exDem exStore 0).1.get 0 = exStore.get 0 ∧
        (update_z_values_heap exT exDem exStore 0).2 ≠ 0 ∧
        (update_z_values_heap exT exDem exStore 0).1.get
            (update_z_values_heap exT exDem exStore 0).2 =
          update_z_values exT exDem (exStore.get 0)) :=
  ⟨by decide, update_z_values_heap_no_mutation exT exDem exStore 0 (by decide)⟩

end PEU

namespace PEU

/-! ### Filesystem lemmas -/

theorem FS.makedirs_failing (fs : FS) (d : String) :
    (fs.makedirs d).failing = fs.failing := by
  unfold FS.makedirs
  split <;> rfl

theorem FS.makedirs_files (fs : FS) (d : String) :
    (fs.makedirs d).files = fs.files := by
  unfold FS.makedirs
  split <;> rfl

theorem FS.mem_dirs_makedirs (fs : FS) (d : String) : d ∈ (fs.makedirs d).dirs := by
  unfold FS.makedirs
  split
  · assumption
  · exact List.mem_cons_self d fs.dirs

theorem FS.write_of_not_failing (fs : FS) (p : String) (c : FileContent)
    (h : p ∉ fs.failing) :
    fs.write p c = (Except.ok (), { fs with files := setFile fs.files p c }) := by
  unfold FS.write
  rw [if_neg h]

theorem FS.write_dirs (fs : FS) (p : String) (c : FileContent) :
    (fs.write p c).2.dirs = fs.dirs := by
  unfold FS.write
  split <;> rfl

theorem FS.write_failing (fs : FS) (p : String) (c : FileContent) :
    (fs.write p c).2.failing = fs.failing := by
  unfold FS.write
  split <;> rfl

theorem lookup_setFile_self (l : List (String × FileContent)) (p : String)
    (c : FileContent) : (setFile l p c).lookup p = some c := by
  induction l with
  | nil => simp [setFile, List.lookup]
  | cons a t ih =>
    by_cases hq : a.1 = p
    · simp only [setFile, hq, if_pos rfl]
      simp [List.lookup]
    · have hb : (p == a.1) = false := beq_eq_false_iff_ne.mpr fun hpq => hq hpq.symm
      simp only [setFile, if_neg hq]
      simp [List.lookup, hb, ih]

theorem lookup_setFile_ne (l : List (String × FileContent)) (p q : String)
    (c : FileContent) (h : q ≠ p) : (setFile l p c).lookup q = l.lookup q := by
  induction l with
  | nil => simp [setFile, List.lookup, beq_eq_false_iff_ne.mpr h]
  | cons a t ih =>
    by_cases hq : a.1 = p
    · have hb : (q == a.1) = false := beq_eq_false_iff_ne.mpr fun hqa => h (hqa.trans hq)
      simp only [setFile, if_pos hq]
      simp [List.lookup, beq_eq_false_iff_ne.mpr h, hb, hq]
    · cases hqa : (q == a.1) <;>
        simp_all [setFile, if_neg hq, List.lookup]

/-! ### Exporter claims -/

/-- C7: both exporters first make the destination directory exist — a no-op
without error when it already exists, since the statement quantifies over every
starting filesystem — and then overwrite the target path: after the call the
target is bound to the freshly exported content whatever was there before. -/
theorem exports_ensure_dir_and_overwrite (T : Reproject) (fs : FS)
    (gdf : GeoDataFrame) (p : String) (h : p ∉ fs.failing) :
    ((export_shp fs gdf p).1 = Except.ok () ∧
      dirname p ∈ (export_shp fs gdf p).2.dirs ∧
      (export_shp fs gdf p).2.files.lookup p =
        some (FileContent.shp gdf.crs gdf.records "utf-8")) ∧
    ((export_geojson T fs gdf p).1 = Except.ok () ∧
      dirname p ∈ (export_geojson T fs gdf p).2.dirs ∧
      (export_geojson T fs gdf p).2.files.lookup p =
        some (FileContent.geojson (some 4326)
          ((gdf.to_crs T (some 4326)).records) "utf-8")) := by
  have hf : p ∉ (fs.makedirs (dirname p)).failing := by
    rw [FS.makedirs_failing]; exact h
  have hw := FS.write_of_not_failing (fs.makedirs (dirname p)) p
  constructor
  · unfold export_shp
    rw [hw _ hf]
    refine ⟨rfl, FS.mem_dirs_makedirs fs (dirname p), ?_⟩
    simp only [FS.makedirs_files]
    exact lookup_setFile_self fs.files p _
  · unfold export_geojson
    dsimp only
    rw [hw _ hf]
    refine ⟨rfl, FS.mem_dirs_makedirs fs (dirname p), ?_⟩
    simp only [FS.makedirs_files]
    exact lookup_setFile_self fs.files p _

/-- Witness for C7: export over a filesystem where the directory already exists
and the target file already holds different content; the export succeeds and
overwrites it. -/
theorem exports_ensure_dir_and_overwrite_witness :
    "out/a.shp" ∉ exFSBusy.failing ∧
      (((export_shp exFSBusy exGdf "out/a.shp").1 = Except.ok () ∧
        dirname "out/a.shp" ∈ (export_shp exFSBusy exGdf "out/a.shp").2.dirs ∧
        (export_shp exFSBusy exGdf "out/a.shp").2.files.lookup "out/a.shp" =
          some (FileContent.shp exGdf.crs exGdf.records "utf-8")) ∧
      ((export_geojson exT exFSBusy exGdf "out/a.shp").1 = Except.ok () ∧
        dirname "out/a.shp" ∈ (export_geojson exT exFSBusy exGdf "out/a.shp").2.dirs ∧
        (export_geojson exT exFSBusy exGdf "out/a.shp").2.files.lookup "out/a.shp" =
          some (FileContent.geojson (some 4326)
            ((exGdf.to_crs exT (some 4326)).records) "utf-8"))) :=
  ⟨by decide, exports_ensure_dir_and_overwrite exT exFSBusy exGdf "out/a.shp" (by decide)⟩

theorem FS.write_of_failing (fs : FS) (p : String) (c : FileContent)
    (h : p ∈ fs.failing) :
    fs.write p c = (Except.error PErr.writeError, fs) := by
  unfold FS.write
  rw [if_pos h]

/-- The object-level `export_geojson` equals: make the directory, allocate the
reprojected copy, write it; the store only grows by the copy. -/
theorem export_geojson_heap_eq (T : Reproject) (s : Store) (r : Nat) (fs : FS)
    (p : String) :
    export_geojson_heap T s r fs p =
      ((fs.makedirs (dirname p)).write p
          (FileContent.geojson (some 4326)
            (((s.get r).to_crs T (some 4326)).records) "utf-8"),
        (s.alloc ((s.get r).to_crs T (some 4326))).1) := by
  unfold export_geojson_heap
  dsimp only
  simp only [Store.alloc_snd, Store.get_alloc_length]
  rfl

/-- C10: at the object level, `export_geojson` leaves the caller's dataset
object untouched — the EPSG:4326 reprojection lands in a fresh local copy — and
the file written holds the reprojected copy, computed from the caller's
original (unchanged) dataset. -/
theorem export_geojson_heap_no_mutation (T : Reproject) (s : Store) (r : Nat)
    (fs : FS) (p : String) (h : r < s.frames.length) (hp : p ∉ fs.failing) :
    (export_geojson_heap T s r fs p).2.get r = s.get r ∧
    ((export_geojson_heap T s r fs p).1.2).files.lookup p =
      some (FileContent.geojson (some 4326)
        (((s.get r).to_crs T (some 4326)).records) "utf-8") := by
  rw [export_geojson_heap_eq]
  refine ⟨Store.get_alloc_of_lt s _ h, ?_⟩
  have hf : p ∉ (fs.makedirs (dirname p)).failing := by
    rw [FS.makedirs_failing]; exact hp
  rw [FS.write_of_not_failing _ _ _ hf]
  dsimp only
  rw [FS.makedirs_files]
  exact lookup_setFile_self fs.files p _

/-- Witness for C10 at a concrete store, reference and filesystem. -/
theorem export_geojson_heap_no_mutation_witness :
    (0 < exStore.frames.length ∧ "out/a.geojson" ∉ exFS.failing) ∧
      ((export_geojson_heap exT exStore 0 exFS "out/a.geojson").2.get 0 =
          exStore.get 0 ∧
        ((export_geojson_heap exT exStore 0 exFS "out/a.geojson").1.2).files.lookup
            "out/a.geojson" =
          some (FileContent.geojson (some 4326)
            (((exStore.get 0).to_crs exT (some 4326)).records) "utf-8")) :=
  ⟨⟨by decide, by decide⟩,
    export_geojson_heap_no_mutation exT exStore 0 exFS "out/a.geojson"
      (by decide) (by decide)⟩

theorem shp_out_ne_json_out (out_dir base : String) :
    joinPath out_dir (base ++ "_Z.shp") ≠ joinPath out_dir (base ++ "_Z.geojson") := by
  intro heq
  have hl := congrArg String.length heq
  have e1 : ("_Z.shp" : String).length = 6 := rfl
  have e2 : ("_Z.geojson" : String).length = 10 := rfl
  simp only [joinPath, String.length_append, e1, e2] at hl
  omega

/-- C6: on a successful run of the single-file driver, the shapefile output
holds the updated dataset as-is in the DEM's CRS with UTF-8 encoding, while the
GeoJSON output holds the dataset reprojected to EPSG:4326; the GeoJSON
reprojection does not change the CRS recorded in the shapefile output. -/
theorem process_shapefile_export_contents (T : Reproject) (dem : DEM)
    (parse : String → Option GeoDataFrame) (fs : FS) (shp_path out_dir : String)
    (gdf : GeoDataFrame) (hp : parse shp_path = some gdf)
    (h1 : joinPath out_dir (stem (basename shp_path) ++ "_Z.shp") ∉ fs.failing)
    (h2 : joinPath out_dir (stem (basename shp_path) ++ "_Z.geojson") ∉ fs.failing) :
    (process_shapefile T dem parse fs shp_path out_dir).1 = Except.ok () ∧
    (process_shapefile T dem parse fs shp_path out_dir).2.files.lookup
        (joinPath out_dir (stem (basename shp_path) ++ "_Z.shp")) =
      some (FileContent.shp dem.crs (update_z_values T dem gdf).records "utf-8") ∧
    (process_shapefile T dem parse fs shp_path out_dir).2.files.lookup
        (joinPath out_dir (stem (basename shp_path) ++ "_Z.geojson")) =
      some (FileContent.geojson (some 4326)
        (((update_z_values T dem gdf).to_crs T (some 4326)).records) "utf-8") := by
  have hu := update_z_values_crs T dem gdf
  unfold process_shapefile
  rw [hp]
  dsimp only
  unfold export_shp
  rw [FS.write_of_not_failing _ _ _ (by rw [FS.makedirs_failing]; exact h1)]
  dsimp only
  unfold export_geojson
  rw [FS.write_of_not_failing _ _ _ (by simp only [FS.makedirs_failing]; exact h2)]
  dsimp only
  refine ⟨rfl, ?_, ?_⟩
  · rw [FS.makedirs_files]
    rw [lookup_setFile_ne _ _ _ _ (shp_out_ne_json_out out_dir (stem (basename shp_path)))]
    rw [FS.makedirs_files, hu.symm]
    exact lookup_setFile_self fs.files _ _
  · rw [FS.makedirs_files]
    exact lookup_setFile_self _ _ _

/-- Witness for C6 on a concrete DEM, dataset and filesystem. -/
theorem process_shapefile_export_contents_witness :
    (exParse "in/pts.shp" = some exGdf ∧
      joinPath "out" (stem (basename "in/pts.shp") ++ "_Z.shp") ∉ exFS.failing ∧
      joinPath "out" (stem (basename "in/pts.shp") ++ "_Z.geojson") ∉ exFS.failing) ∧
      ((process_shapefile exT exDem exParse exFS "in/pts.shp" "out").1 = Except.ok () ∧
        (process_shapefile exT exDem exParse exFS "in/pts.shp" "out").2.files.lookup
            (joinPath "out" (stem (basename "in/pts.shp") ++ "_Z.shp")) =
          some (FileContent.shp exDem.crs
            (update_z_values exT exDem exGdf).records "utf-8") ∧
        (process_shapefile exT exDem exParse exFS "in/pts.shp" "out").2.files.lookup
            (joinPath "out" (stem (basename "in/pts.shp") ++ "_Z.geojson")) =
          some (FileContent.geojson (some 4326)
            (((update_z_values exT exDem exGdf).to_crs exT (some 4326)).records)
            "utf-8")) :=
  ⟨⟨rfl, by decide, by decide⟩,
    process_shapefile_export_contents exT exDem exParse exFS "in/pts.shp" "out"
      exGdf rfl (by decide) (by decide)⟩

/-- C8: in the single-file driver the shapefile is exported first; when that
export succeeds and the GeoJSON export then fails, the error propagates to the
caller while the already-written shapefile stays in the filesystem — no
rollback. -/
theorem process_shapefile_no_rollback (T : Reproject) (dem : DEM)
    (parse : String → Option GeoDataFrame) (fs : FS) (shp_path out_dir : String)
    (gdf : GeoDataFrame) (hp : parse shp_path = some gdf)
    (h1 : joinPath out_dir (stem (basename shp_path) ++ "_Z.shp") ∉ fs.failing)
    (h2 : joinPath out_dir (stem (basename shp_path) ++ "_Z.geojson") ∈ fs.failing) :
    (process_shapefile T dem parse fs shp_path out_dir).1 =
      Except.error PErr.writeError ∧
    (process_shapefile T dem parse fs shp_path out_dir).2.files.lookup
        (joinPath out_dir (stem (basename shp_path) ++ "_Z.shp")) =
      some (FileContent.shp dem.crs (update_z_values T dem gdf).records "utf-8") := by
  have hu := update_z_values_crs T dem gdf
  unfold process_shapefile
  rw [hp]
  dsimp only
  unfold export_shp
  rw [FS.write_of_not_failing _ _ _ (by rw [FS.makedirs_failing]; exact h1)]
  dsimp only
  unfold export_geojson
  rw [FS.write_of_failing _ _ _ (by simp only [FS.makedirs_failing]; exact h2)]
  dsimp only
  refine ⟨rfl, ?_⟩
  rw [FS.makedirs_files, FS.makedirs_files, hu.symm]
  exact lookup_setFile_self fs.files _ _

/-- Witness for C8: the GeoJSON output path is failing, the shapefile path is
not; the driver errors out and the shapefile is on disk. -/
theorem process_shapefile_no_rollback_witness :
    (exParse "in/pts.shp" = some exGdf ∧
      joinPath "out" (stem (basename "in/pts.shp") ++ "_Z.shp") ∉ exFSJsonFail.failing ∧
      joinPath "out" (stem (basename "in/pts.shp") ++ "_Z.geojson") ∈
        exFSJsonFail.failing) ∧
      ((process_shapefile exT exDem exParse exFSJsonFail "in/pts.shp" "out").1 =
          Except.error PErr.writeError ∧
        (process_shapefile exT exDem exParse exFSJsonFail "in/pts.shp" "out").2.files.lookup
            (joinPath "out" (stem (basename "in/pts.shp") ++ "_Z.shp")) =
          some (FileContent.shp exDem.crs
            (update_z_values exT exDem exGdf).records "utf-8")) :=
  ⟨⟨rfl, by decide, by decide⟩,
    process_shapefile_no_rollback exT exDem exParse exFSJsonFail "in/pts.shp" "out"
      exGdf rfl (by decide) (by decide)⟩

end PEU
